import Mathlib

/-!
Shallow embedding of the Tuya Zigbee garage-door driver
(`drivers/Garage_Door_Opener/device.js` and its richer revision, the
canonical one per the design document). The driver is an event-driven
state machine: trigger requests, Tuya data-point reports, and timer
callbacks mutate a single per-device state record. Timers are modelled
with a tracked slot (the timer handle currently stored in the device
field) plus an orphan counter (timers that were scheduled and then had
their handle overwritten without a cancel - the code never does this,
which is exactly the invariant proved below).

Settings values are modelled as `Option Nat`: the design document
(section 3) constrains all three configuration values to nonnegative
integers, and `none` models a value on which `parseInt` returns NaN.
-/

set_option linter.unusedVariables false
set_option linter.unnecessarySeqFocus false

namespace GarageDoor

/-- Outcome of one `writeBool` transport attempt, as classified by the
driver: success, an error whose message contains "Timeout", or any
other error. -/
inductive WriteRes
  | ok
  | timeoutErr
  | err
deriving DecidableEq, Repr

/-- Device settings as returned by `getSettings()`, after `parseInt`.
`none` models an unset or unparseable value (NaN). -/
structure Settings where
  count_down : Option Nat
  run_time : Option Nat
  open_alarm_time : Option Nat
deriving DecidableEq, Repr

/-- JavaScript `parseInt(x) || d`: NaN and 0 are falsy and fall back to
the default `d`. -/
def parseIntOr (v : Option Nat) (d : Nat) : Nat :=
  match v with
  | some n => if n = 0 then d else n
  | none => d

/-- The two alert kinds the driver emits through Homey flow trigger
cards: `runtime_alarm_triggered` and `opentime_alarm_triggered`. -/
inductive Alert
  | runtimeAlarm
  | openTimeAlarm
deriving DecidableEq, Repr

/-- A Tuya data-point report as received from the cluster: the
data-point id `dp`, the `datatype` tag and the raw payload bytes. -/
structure TuyaDataPoint where
  dp : Nat
  datatype : Nat
  data : List Nat
deriving DecidableEq, Repr

/-- JavaScript `ToInt32`: reduce an integer to the signed 32-bit range,
as the `<<` operator does to its result. -/
def toInt32 (v : Int) : Int :=
  if v % 4294967296 < 2147483648 then v % 4294967296 else v % 4294967296 - 4294967296

/-- `convertMultiByte(chunks)` from the source: starts from 0 and for
each byte does `value = value << 8; value += chunks[i]`. The shift is a
JavaScript 32-bit signed shift, so every intermediate shift result is
wrapped to the signed 32-bit range; the following addition is exact. -/
def convertMultiByte (chunks : List Nat) : Int :=
  chunks.foldl (fun (value : Int) (c : Nat) => toInt32 (value * 256) + (c : Int)) 0

/-- Result of `getDataValue`: raw byte array, boolean, number from
`convertMultiByte`, or the first byte (`none` models the JavaScript
`undefined` read from an empty array). -/
inductive TuyaValue
  | raw (data : List Nat)
  | boolean (b : Bool)
  | integer (n : Int)
  | byte (b : Option Nat)
deriving DecidableEq, Repr

/-- `getDataValue(dpValue)` from the source: decode the payload by the
datatype tag. -/
def getDataValue (dv : TuyaDataPoint) : TuyaValue :=
  match dv.datatype with
  | 0 => .raw dv.data
  | 1 => .boolean (dv.data.head? == some 1)
  | 2 => .integer (convertMultiByte dv.data)
  | 4 => .byte dv.data.head?
  | _ => .raw dv.data

/-- JavaScript truthiness of a decoded value, as used by `!!value` in
the contact handler: arrays are always truthy, numbers are truthy iff
nonzero, `undefined` is falsy. -/
def jsTruthy : TuyaValue → Bool
  | .raw _ => true
  | .boolean b => b
  | .integer n => n != 0
  | .byte (some n) => n != 0
  | .byte none => false

/-- JavaScript `value.toString()` on a decoded value. `none` models the
TypeError thrown when the value is `undefined` (empty payload under tag
4), which aborts the handler before any capability write. -/
def jsToString : TuyaValue → Option String
  | .raw l => some (String.intercalate "," (l.map toString))
  | .boolean b => some (if b then "true" else "false")
  | .integer n => some (toString n)
  | .byte (some n) => some (toString n)
  | .byte none => none

/-- Which optional capabilities the device instance exposes, fixed at
initialization (`hasCapability` checks in the source). -/
structure Caps where
  hasStateCap : Bool
  hasButton : Bool
deriving DecidableEq, Repr

/-- The per-device state. Capability values `alarm_contact`,
`garage_Door_Button` and `garage_Door_State_Capability` are the Homey
capability store; each timer kind has a tracked slot (the pending timer
whose handle the device field holds, with its payload) and an orphan
count (pending timers whose handle was overwritten without a cancel).
`errorRecovery` is the anonymous 3000 ms recovery timeout scheduled on
a failed pulse, holding its delay in milliseconds. -/
structure DeviceState where
  caps : Caps
  settings : Settings
  alarm_contact : Bool
  garage_Door_Button : Bool
  garage_Door_State_Capability : String
  safetySlot : Option (Bool × Nat)
  safetyOrphans : Nat
  countdownSlot : Option Nat
  countdownOrphans : Nat
  openAlarmSlot : Option Nat
  openAlarmOrphans : Nat
  errorRecovery : Option Nat
deriving DecidableEq, Repr

/-- `homey.clearTimeout(this.safetyTimer)`: cancels the tracked pending
safety timer if any; orphans are unreachable from the field and stay. -/
def clearSafety (s : DeviceState) : DeviceState :=
  { s with safetySlot := none }

/-- `homey.clearTimeout(this.delayedTriggerTimer)`. -/
def clearCountdown (s : DeviceState) : DeviceState :=
  { s with countdownSlot := none }

/-- `homey.clearTimeout(this.openAlarmTimer)`. -/
def clearOpenAlarm (s : DeviceState) : DeviceState :=
  { s with openAlarmSlot := none }

/-- `this.safetyTimer = homey.setTimeout(...)`: schedules a new safety
timer with payload `p` (expected end state, duration in seconds); if
the field already tracked a pending timer, that one becomes an orphan. -/
def scheduleSafety (p : Bool × Nat) (s : DeviceState) : DeviceState :=
  { s with
    safetySlot := some p
    safetyOrphans := s.safetyOrphans + (match s.safetySlot with | some _ => 1 | none => 0) }

/-- `this.delayedTriggerTimer = homey.setTimeout(...)` with the
countdown duration in seconds. -/
def scheduleCountdown (d : Nat) (s : DeviceState) : DeviceState :=
  { s with
    countdownSlot := some d
    countdownOrphans := s.countdownOrphans + (match s.countdownSlot with | some _ => 1 | none => 0) }

/-- `this.openAlarmTimer = homey.setTimeout(...)` with the open-alarm
duration in seconds. -/
def scheduleOpenAlarm (d : Nat) (s : DeviceState) : DeviceState :=
  { s with
    openAlarmSlot := some d
    openAlarmOrphans := s.openAlarmOrphans + (match s.openAlarmSlot with | some _ => 1 | none => 0) }

/-- `setCapabilityValue('garage_Door_State_Capability', v)` guarded by
`hasCapability` (or unguarded with the rejection caught, which has the
same effect on state: a write to a missing capability fails and is
swallowed by `.catch`). -/
def setStateCap (v : String) (s : DeviceState) : DeviceState :=
  { s with
    garage_Door_State_Capability :=
      if s.caps.hasStateCap then v else s.garage_Door_State_Capability }

/-- `setCapabilityValue('garage_Door_Button', v)`, same convention. -/
def setButton (v : Bool) (s : DeviceState) : DeviceState :=
  { s with
    garage_Door_Button := if s.caps.hasButton then v else s.garage_Door_Button }

/-- `startSafetyTimer(expectedState)` from the source: clear the old
safety timer, read `run_time` with `parseInt(...) || 20`, and schedule
the confirmation check for that many seconds. -/
def startSafetyTimer (expectedState : Bool) (s : DeviceState) : DeviceState :=
  scheduleSafety (expectedState, parseIntOr s.settings.run_time 20) (clearSafety s)

/-- Result of one `sendPulse` run: the new device state, how many
`writeBool` attempts were made, the delay before the retry attempt if
one happened, and whether the cycle ended as failed. -/
structure PulseResult where
  state : DeviceState
  attempts : Nat
  retryDelayMs : Option Nat
  failed : Bool
deriving DecidableEq, Repr

/-- The `sendPulse` closure from `triggerDoorPulse`: set the status to
`moving`, record the expected end state as the negation of the current
contact value, then `writeBool` the trigger. A timeout on the write is
treated as success (the device pulses without acknowledging); any other
error is retried once after 500 ms; if the retry also fails, set the
status to `error`, schedule the 3000 ms recovery timeout and return
without starting the safety timer. `r1` and `r2` are the transport
outcomes of the first and (if reached) second write attempt. -/
def sendPulse (r1 r2 : WriteRes) (s : DeviceState) : PulseResult :=
  match r1 with
  | .ok =>
    ⟨startSafetyTimer (!s.alarm_contact) (setStateCap "moving" s), 1, none, false⟩
  | .timeoutErr =>
    ⟨startSafetyTimer (!s.alarm_contact) (setStateCap "moving" s), 1, none, false⟩
  | .err =>
    match r2 with
    | .ok =>
      ⟨startSafetyTimer (!s.alarm_contact) (setStateCap "moving" s), 2, some 500, false⟩
    | _ =>
      ⟨{ setStateCap "error" (setStateCap "moving" s) with errorRecovery := some 3000 },
        2, some 500, true⟩

/-- `triggerDoorPulse()` from the source: clear the delayed trigger and
safety timers, read `count_down` with `parseInt(...) || 0`; if zero,
send the pulse at once, otherwise set the status to `2` (countdown
active) and schedule the delayed trigger. -/
def triggerDoorPulse (r1 r2 : WriteRes) (s : DeviceState) : PulseResult :=
  if parseIntOr s.settings.count_down 0 = 0 then
    sendPulse r1 r2 (clearSafety (clearCountdown s))
  else
    ⟨scheduleCountdown (parseIntOr s.settings.count_down 0)
        (setStateCap "2" (clearSafety (clearCountdown s))), 0, none, false⟩

/-- `startOpenAlarmTimer()` from the source: clear the old open-alarm
timer, read `open_alarm_time` with `parseInt(...) || 0`; if zero the
feature is disabled and nothing is scheduled, otherwise schedule the
open-duration check for that many seconds. -/
def startOpenAlarmTimer (s : DeviceState) : DeviceState :=
  if parseIntOr s.settings.open_alarm_time 0 = 0 then
    clearOpenAlarm s
  else
    scheduleOpenAlarm (parseIntOr s.settings.open_alarm_time 0) (clearOpenAlarm s)

/-- `stopOpenAlarmTimer()` from the source. -/
def stopOpenAlarmTimer (s : DeviceState) : DeviceState :=
  clearOpenAlarm s

/-- `handleDataPoint(data)` from the source: decode the value; dp 3
(position contact) cancels the safety and delayed-trigger timers,
stores the contact value, syncs the button and status capabilities and
manages the open-alarm timer; dp 12 (status code) only writes the
string form of the value to the status capability; other dps are
ignored. The second component is the list of alerts emitted.
`contactUpdate` is the dp 3 branch body, with the decoded truthiness
already computed. -/
def contactUpdate (isOpen : Bool) (s : DeviceState) : DeviceState :=
  if isOpen then
    startOpenAlarmTimer
      (setStateCap (if isOpen then "open" else "closed")
        (setButton isOpen
          { clearCountdown (clearSafety s) with alarm_contact := isOpen }))
  else
    stopOpenAlarmTimer
      (setStateCap (if isOpen then "open" else "closed")
        (setButton isOpen
          { clearCountdown (clearSafety s) with alarm_contact := isOpen }))

def handleDataPoint (d : TuyaDataPoint) (s : DeviceState) : DeviceState × List Alert :=
  if d.dp = 3 then
    (contactUpdate (jsTruthy (getDataValue d)) s, [])
  else if d.dp = 12 then
    match jsToString (getDataValue d) with
    | some str => (setStateCap str s, [])
    | none => (s, [])
  else
    (s, [])

/-- The safety-timer callback from `startSafetyTimer`: when it fires,
compare the last known contact value with the expected end state; on a
mismatch force the button to the actual contact value, set the status
to `1` (alarm) and trigger the runtime alarm flow card; on a match do
nothing. A fired timer leaves the slot empty. When no safety timer is
pending the callback cannot run. -/
def safetyFireStep (s : DeviceState) : DeviceState × List Alert :=
  match s.safetySlot with
  | none => (s, [])
  | some p =>
    if s.alarm_contact ≠ p.1 then
      (setStateCap "1" (setButton s.alarm_contact { s with safetySlot := none }),
        [.runtimeAlarm])
    else
      ({ s with safetySlot := none }, [])

/-- The open-alarm callback from `startOpenAlarmTimer`: when it fires,
re-check the contact value and trigger the open-time alarm flow card
only if the door is still open. -/
def openAlarmFireStep (s : DeviceState) : DeviceState × List Alert :=
  match s.openAlarmSlot with
  | none => (s, [])
  | some _ =>
    if s.alarm_contact then
      ({ s with openAlarmSlot := none }, [.openTimeAlarm])
    else
      ({ s with openAlarmSlot := none }, [])

/-- Firing of the delayed trigger timer: runs the `sendPulse` closure. -/
def countdownFireStep (r1 r2 : WriteRes) (s : DeviceState) : DeviceState × List Alert :=
  match s.countdownSlot with
  | none => (s, [])
  | some _ => ((sendPulse r1 r2 { s with countdownSlot := none }).state, [])

/-- Firing of the anonymous 3000 ms recovery timeout scheduled on a
failed pulse: re-derive the status capability from the current contact
value. -/
def errorRecoveryFireStep (s : DeviceState) : DeviceState × List Alert :=
  match s.errorRecovery with
  | none => (s, [])
  | some _ =>
    (setStateCap (if s.alarm_contact then "open" else "closed")
      { s with errorRecovery := none }, [])

/-- `onSettings({newSettings, changedKeys})` from the source, keeping
only its effect on device state (the `writeData32` transport calls have
none). Modelled from the spec: the configuration store applies the new
values atomically, so `getSettings()` inside the restarted open-alarm
timer reads the new settings (design document, sections 3 and 4.4); the
store itself is host-framework code outside the repository sources. -/
def onSettings (newSettings : Settings) (changedKeys : List String) (s : DeviceState) : DeviceState :=
  if changedKeys.contains "open_alarm_time" && s.alarm_contact then
    startOpenAlarmTimer { s with settings := newSettings }
  else
    { s with settings := newSettings }

/-- External stimuli of one device: a trigger request (from the button
listener or the flow action, both of which call `triggerDoorPulse`), a
timer callback, a Tuya data-point report, or a settings change. The
transport outcomes a pulse would see are carried by the event. -/
inductive Event
  | trigger (r1 r2 : WriteRes)
  | countdownFire (r1 r2 : WriteRes)
  | safetyFire
  | openAlarmFire
  | errorRecoveryFire
  | dataPoint (d : TuyaDataPoint)
  | settingsChange (newSettings : Settings) (changedKeys : List String)
deriving DecidableEq, Repr

/-- One handler execution. Handlers are serialized per device by the
single event loop, so a run is a fold over an event list. -/
def step (s : DeviceState) (e : Event) : DeviceState × List Alert :=
  match e with
  | .trigger r1 r2 => ((triggerDoorPulse r1 r2 s).state, [])
  | .countdownFire r1 r2 => countdownFireStep r1 r2 s
  | .safetyFire => safetyFireStep s
  | .openAlarmFire => openAlarmFireStep s
  | .errorRecoveryFire => errorRecoveryFireStep s
  | .dataPoint d => handleDataPoint d s
  | .settingsChange ns ck => (onSettings ns ck s, [])

/-- Run a sequence of events from a state. -/
def run (s : DeviceState) : List Event → DeviceState
  | [] => s
  | e :: es => run (step s e).1 es

/-- Number of pending safety timers: the tracked one plus orphans. -/
def safetyPendingCount (s : DeviceState) : Nat :=
  s.safetyOrphans + (match s.safetySlot with | some _ => 1 | none => 0)

/-- Number of pending delayed-trigger timers. -/
def countdownPendingCount (s : DeviceState) : Nat :=
  s.countdownOrphans + (match s.countdownSlot with | some _ => 1 | none => 0)

/-- Number of pending open-alarm timers. -/
def openAlarmPendingCount (s : DeviceState) : Nat :=
  s.openAlarmOrphans + (match s.openAlarmSlot with | some _ => 1 | none => 0)

/-- A freshly initialized device has no pending timers of any kind. -/
def NoPendingTimers (s : DeviceState) : Prop :=
  s.safetySlot = none ∧ s.safetyOrphans = 0 ∧
  s.countdownSlot = none ∧ s.countdownOrphans = 0 ∧
  s.openAlarmSlot = none ∧ s.openAlarmOrphans = 0

/-- The timer discipline the code maintains: no orphaned timers of any
kind, and the delayed-trigger and safety timers are never pending at
the same time. -/
def TimerInv (s : DeviceState) : Prop :=
  s.safetyOrphans = 0 ∧ s.countdownOrphans = 0 ∧ s.openAlarmOrphans = 0 ∧
  (s.safetySlot = none ∨ s.countdownSlot = none)

/-- Spec-side definition, following section 6 of the design document:
the big-endian unsigned integer formed from all payload bytes. Used to
compare `convertMultiByte` against the documented decoding. -/
def specBigEndian (l : List Nat) : Nat :=
  l.foldl (fun a c => a * 256 + c) 0

/-- A concrete freshly paired device used by witnesses: both optional
capabilities present, countdown 0, run time 20, open alarm 30, door
closed, no pending timers. -/
def initState : DeviceState :=
  { caps := ⟨true, true⟩
    settings := ⟨some 0, some 20, some 30⟩
    alarm_contact := false
    garage_Door_Button := false
    garage_Door_State_Capability := "closed"
    safetySlot := none
    safetyOrphans := 0
    countdownSlot := none
    countdownOrphans := 0
    openAlarmSlot := none
    openAlarmOrphans := 0
    errorRecovery := none }

end GarageDoor

namespace GarageDoor

/-- Reducing to the signed 32-bit range preserves the residue
modulo 2 to the 32. -/
theorem toInt32_emod (x : Int) : toInt32 x % 4294967296 = x % 4294967296 := by
  unfold toInt32
  split <;> omega

/-- On multiples of 256, the signed 32-bit reduction stays at least 256
below the upper bound, leaving room for one more byte. -/
theorem toInt32_of_dvd (x : Int) (h : (256 : Int) ∣ x) :
    -2147483648 ≤ toInt32 x ∧ toInt32 x ≤ 2147483392 := by
  unfold toInt32
  split <;> omega

/-- Generalized invariant for the `convertMultiByte` fold: as long as
the running JavaScript value stays congruent to the exact big-endian
accumulator and within the signed 32-bit range, the fold with wrapping
shifts computes the signed 32-bit reduction of the exact fold. -/
theorem convertMultiByte_aux (l : List Nat) :
    ∀ (v : Int) (w : Nat), (∀ c ∈ l, c < 256) →
      v % 4294967296 = (w : Int) % 4294967296 →
      -2147483648 ≤ v → v < 2147483648 →
      l.foldl (fun (value : Int) (c : Nat) => toInt32 (value * 256) + (c : Int)) v =
        toInt32 ((l.foldl (fun a c => a * 256 + c) w : Nat) : Int) := by
  induction l with
  | nil =>
    intro v w hb hmod h1 h2
    simp only [List.foldl_nil]
    have hw : (0 : Int) ≤ (w : Int) := Int.natCast_nonneg w
    unfold toInt32
    split <;> omega
  | cons c t ih =>
    intro v w hb hmod h1 h2
    simp only [List.foldl_cons]
    have hc : c < 256 := hb c (List.mem_cons_self c t)
    have hd : (256 : Int) ∣ v * 256 := ⟨v, by ring⟩
    have hbound := toInt32_of_dvd (v * 256) hd
    have hmod2 := toInt32_emod (v * 256)
    have hmul : (v * 256) % 4294967296 = ((w : Int) * 256) % 4294967296 := by
      conv_lhs => rw [Int.mul_emod, hmod, ← Int.mul_emod]
    apply ih
    · intro x hx
      exact hb x (List.mem_cons_of_mem c hx)
    · push_cast
      omega
    · omega
    · omega

/-- `convertMultiByte` computes the signed 32-bit reduction of the
big-endian unsigned value of the payload, for byte-valued chunks. -/
theorem convertMultiByte_eq (l : List Nat) (hb : ∀ c ∈ l, c < 256) :
    convertMultiByte l = toInt32 (specBigEndian l) := by
  unfold convertMultiByte specBigEndian
  exact convertMultiByte_aux l 0 0 hb rfl (by norm_num) (by norm_num)

end GarageDoor

namespace GarageDoor

/-- Every handler preserves the timer discipline: each scheduling site
cancels the tracked timer of the same kind first, so no timer is ever
orphaned, and the delayed-trigger and safety timers are never pending
together. -/
theorem timerInv_step (s : DeviceState) (e : Event) (h : TimerInv s) :
    TimerInv (step s e).1 := by
  obtain ⟨h1, h2, h3, h4⟩ := h
  cases e with
  | trigger r1 r2 =>
    by_cases hcd : parseIntOr s.settings.count_down 0 = 0 <;>
      cases r1 <;> cases r2 <;>
      simp_all [step, triggerDoorPulse, sendPulse, startSafetyTimer, scheduleSafety,
        scheduleCountdown, clearSafety, clearCountdown, setStateCap, TimerInv]
  | countdownFire r1 r2 =>
    rcases hslot : s.countdownSlot with _ | d <;>
      cases r1 <;> cases r2 <;>
      simp_all [step, countdownFireStep, sendPulse, startSafetyTimer, scheduleSafety,
        clearSafety, setStateCap, TimerInv]
  | safetyFire =>
    rcases hslot : s.safetySlot with _ | p <;>
      simp_all [step, safetyFireStep, setStateCap, setButton, TimerInv] <;>
      split <;> simp_all
  | openAlarmFire =>
    rcases hslot : s.openAlarmSlot with _ | d <;>
      simp_all [step, openAlarmFireStep, TimerInv] <;>
      split <;> simp_all
  | errorRecoveryFire =>
    rcases hflag : s.errorRecovery with _ | d <;>
      simp_all [step, errorRecoveryFireStep, setStateCap, TimerInv]
  | dataPoint d =>
    by_cases h3dp : d.dp = 3
    · by_cases hopen : jsTruthy (getDataValue d) = true <;>
        by_cases hoat : parseIntOr s.settings.open_alarm_time 0 = 0 <;>
        simp_all [step, handleDataPoint, contactUpdate, startOpenAlarmTimer,
          stopOpenAlarmTimer, scheduleOpenAlarm, clearOpenAlarm, clearSafety,
          clearCountdown, setStateCap, setButton, TimerInv]
    · by_cases h12 : d.dp = 12
      · simp only [step, handleDataPoint, h3dp, h12, if_false, if_true]
        rcases jsToString (getDataValue d) with _ | str <;>
          simp_all [setStateCap, TimerInv]
      · simp_all [step, handleDataPoint, TimerInv]
  | settingsChange ns ck =>
    by_cases hoat : parseIntOr ns.open_alarm_time 0 = 0 <;>
      simp_all [step, onSettings, startOpenAlarmTimer, scheduleOpenAlarm,
        clearOpenAlarm, TimerInv] <;>
      split <;> simp_all


/-- The timer discipline holds along any event sequence. -/
theorem timerInv_run (s : DeviceState) (es : List Event) (h : TimerInv s) :
    TimerInv (run s es) := by
  induction es generalizing s with
  | nil => exact h
  | cons e t ih => exact ih (step s e).1 (timerInv_step s e h)

end GarageDoor

namespace GarageDoor

/-- Every settings-change event in the trace leaves the open-alarm
duration disabled (parsing to 0). -/
def OpenAlarmZeroTrace (es : List Event) : Prop :=
  ∀ e ∈ es, ∀ ns ck, e = Event.settingsChange ns ck → parseIntOr ns.open_alarm_time 0 = 0

/-- The open-alarm feature is disabled and no open-alarm timer is
pending, orphaned or tracked. -/
def OpenAlarmOff (s : DeviceState) : Prop :=
  parseIntOr s.settings.open_alarm_time 0 = 0 ∧ s.openAlarmSlot = none ∧ s.openAlarmOrphans = 0

/-- With the open-alarm duration disabled, no handler ever schedules an
open-alarm timer. -/
theorem openAlarmOff_step (s : DeviceState) (e : Event) (h : OpenAlarmOff s)
    (he : ∀ ns ck, e = Event.settingsChange ns ck → parseIntOr ns.open_alarm_time 0 = 0) :
    OpenAlarmOff (step s e).1 := by
  obtain ⟨h1, h2, h3⟩ := h
  cases e with
  | trigger r1 r2 =>
    by_cases hcd : parseIntOr s.settings.count_down 0 = 0 <;> cases r1 <;> cases r2 <;>
      simp_all [step, triggerDoorPulse, sendPulse, startSafetyTimer, scheduleSafety,
        scheduleCountdown, clearSafety, clearCountdown, setStateCap, OpenAlarmOff]
  | countdownFire r1 r2 =>
    rcases hslot : s.countdownSlot with _ | d <;> cases r1 <;> cases r2 <;>
      simp_all [step, countdownFireStep, sendPulse, startSafetyTimer, scheduleSafety,
        clearSafety, setStateCap, OpenAlarmOff]
  | safetyFire =>
    rcases hslot : s.safetySlot with _ | p <;>
      simp_all [step, safetyFireStep, setStateCap, setButton, OpenAlarmOff] <;>
      split <;> simp_all
  | openAlarmFire =>
    rcases hslot : s.openAlarmSlot with _ | d <;>
      simp_all [step, openAlarmFireStep, OpenAlarmOff]
  | errorRecoveryFire =>
    rcases hflag : s.errorRecovery with _ | d <;>
      simp_all [step, errorRecoveryFireStep, setStateCap, OpenAlarmOff]
  | dataPoint d =>
    by_cases h3dp : d.dp = 3
    · by_cases hopen : jsTruthy (getDataValue d) = true <;>
        simp_all [step, handleDataPoint, contactUpdate, startOpenAlarmTimer,
          stopOpenAlarmTimer, clearOpenAlarm, clearSafety, clearCountdown,
          setStateCap, setButton, OpenAlarmOff]
    · by_cases h12 : d.dp = 12
      · simp only [step, handleDataPoint, h3dp, h12, if_false, if_true]
        rcases jsToString (getDataValue d) with _ | str <;>
          simp_all [setStateCap, OpenAlarmOff]
      · simp_all [step, handleDataPoint, OpenAlarmOff]
  | settingsChange ns ck =>
    have hz := he ns ck rfl
    by_cases hck : (ck.contains "open_alarm_time" && s.alarm_contact) = true <;>
      simp_all [step, onSettings, startOpenAlarmTimer, clearOpenAlarm, OpenAlarmOff] <;>
      split <;> simp_all

/-- Along any trace whose settings changes keep the open-alarm duration
at 0, no open-alarm timer is ever pending. -/
theorem openAlarmOff_run (s : DeviceState) (es : List Event) (h : OpenAlarmOff s)
    (he : OpenAlarmZeroTrace es) : OpenAlarmOff (run s es) := by
  induction es generalizing s with
  | nil => exact h
  | cons e t ih =>
    apply ih
    · exact openAlarmOff_step s e h (fun ns ck hck => he e (List.mem_cons_self e t) ns ck hck)
    · exact fun e' he' ns ck hck => he e' (List.mem_cons_of_mem e he') ns ck hck

end GarageDoor

namespace GarageDoor

/-- C8 (corrected): `getDataValue` decodes a data-point payload by its
datatype tag: tag 0 returns the raw bytes unchanged, tag 1 returns true
iff the first byte equals 1, tag 4 returns the first byte, and any
other tag returns the raw bytes unchanged; tag 2 returns the big-endian
integer of the payload bytes computed with 32-bit signed wrapping
shifts, i.e. the signed 32-bit reduction of the big-endian unsigned
value (equal to it whenever that value is below 2 to the 31). -/
theorem c8_getDataValue_decode (dv : TuyaDataPoint) (hbytes : ∀ c ∈ dv.data, c < 256) :
    (dv.datatype = 0 → getDataValue dv = .raw dv.data) ∧
    (dv.datatype = 1 →
      ∃ b, getDataValue dv = .boolean b ∧ (b = true ↔ dv.data.head? = some 1)) ∧
    (dv.datatype = 2 → getDataValue dv = .integer (toInt32 (specBigEndian dv.data))) ∧
    (dv.datatype = 4 → getDataValue dv = .byte dv.data.head?) ∧
    (dv.datatype ≠ 0 → dv.datatype ≠ 1 → dv.datatype ≠ 2 → dv.datatype ≠ 4 →
      getDataValue dv = .raw dv.data) := by
  refine ⟨?_, ?_, ?_, ?_, ?_⟩
  · intro h; simp [getDataValue, h]
  · intro h
    refine ⟨dv.data.head? == some 1, by simp [getDataValue, h], by simp⟩
  · intro h
    simp [getDataValue, h, convertMultiByte_eq dv.data hbytes]
  · intro h; simp [getDataValue, h]
  · intro h0 h1 h2 h4
    unfold getDataValue
    split <;> simp_all

/-- Witness for C8 at the concrete payload [0,0,0,20] under tag 2. -/
theorem c8_witness :
    (∀ c ∈ [0, 0, 0, 20], c < 256) ∧
      getDataValue ⟨3, 2, [0, 0, 0, 20]⟩ = .integer (toInt32 (specBigEndian [0, 0, 0, 20])) :=
  ⟨by decide, (c8_getDataValue_decode ⟨3, 2, [0, 0, 0, 20]⟩ (by decide)).2.2.1 rfl⟩

/-- Counterexample to C8 as stated: for the 4-byte payload
[128,0,0,0], `getDataValue` under tag 2 returns -2147483648, not the
big-endian unsigned integer 2147483648, because the JavaScript shift
wraps to the signed 32-bit range. -/
theorem c8_counterexample :
    getDataValue ⟨3, 2, [128, 0, 0, 0]⟩ = .integer (-2147483648) ∧
    specBigEndian [128, 0, 0, 0] = 2147483648 ∧
    getDataValue ⟨3, 2, [128, 0, 0, 0]⟩ ≠ .integer ((specBigEndian [128, 0, 0, 0] : Nat) : Int) := by
  exact ⟨by decide, by decide, by decide⟩

/-- C9: `startSafetyTimer` always schedules a strictly positive
confirmation window: the scheduled duration is `parseInt(run_time) || 20`,
which is positive, and equals the default 20 whenever the stored
setting parses to 0 or does not parse. -/
theorem c9_run_time_fallback (s : DeviceState) (expected : Bool) :
    (startSafetyTimer expected s).safetySlot =
      some (expected, parseIntOr s.settings.run_time 20) ∧
    0 < parseIntOr s.settings.run_time 20 ∧
    ((s.settings.run_time = some 0 ∨ s.settings.run_time = none) →
      parseIntOr s.settings.run_time 20 = 20) := by
  refine ⟨rfl, ?_, ?_⟩
  · unfold parseIntOr
    rcases s.settings.run_time with _ | n
    · norm_num
    · by_cases hn : n = 0 <;> simp [hn] <;> omega
  · rintro (h | h) <;> simp [parseIntOr, h]

/-- Witness for C9 with `run_time` stored as 0: the scheduled window
is 20 seconds. -/
theorem c9_witness :
    (startSafetyTimer true { initState with settings := ⟨some 0, some 0, some 0⟩ }).safetySlot =
      some (true, 20) :=
  (c9_run_time_fallback { initState with settings := ⟨some 0, some 0, some 0⟩ } true).1


/-- C1: when the safety timer fires, the handler compares the last
known contact value to the expected end state recorded with the timer:
if they differ, it sets the door button capability to the actual
contact value, sets the status capability to the alarm value "1", and
emits exactly one runtime-discrepancy alert; if they are equal, it
changes no state beyond consuming the fired timer and emits no alert. -/
theorem c1_safety_timer_fire (s : DeviceState) (expected : Bool) (dur : Nat)
    (hslot : s.safetySlot = some (expected, dur))
    (hcapS : s.caps.hasStateCap = true) (hcapB : s.caps.hasButton = true) :
    (s.alarm_contact ≠ expected →
      (safetyFireStep s).1 =
        { s with
            safetySlot := none
            garage_Door_Button := s.alarm_contact
            garage_Door_State_Capability := "1" } ∧
      (safetyFireStep s).2 = [Alert.runtimeAlarm]) ∧
    (s.alarm_contact = expected →
      (safetyFireStep s).1 = { s with safetySlot := none } ∧
      (safetyFireStep s).2 = []) := by
  unfold safetyFireStep
  rw [hslot]
  constructor
  · intro hne
    simp [hne, setStateCap, setButton, hcapS, hcapB]
  · intro heq
    simp [heq]

/-- Witness for C1: a mismatching cycle (door still closed, expected
open) emits exactly the runtime alarm. -/
theorem c1_witness :
    ((safetyFireStep { initState with safetySlot := some (true, 20) }).2 =
      [Alert.runtimeAlarm]) := by
  have h := (c1_safety_timer_fire { initState with safetySlot := some (true, 20) }
    true 20 rfl rfl rfl).1 (by decide)
  exact h.2

/-- C2: for every position-contact report (dp 3), in any control
state, `handleDataPoint` cancels the pending safety and countdown
timers, stores the decoded open/closed value as the contact state, and
recomputes the user-facing status to open or closed from that value
alone. -/
theorem c2_contact_update (s : DeviceState) (d : TuyaDataPoint) (hdp : d.dp = 3)
    (hcap : s.caps.hasStateCap = true) :
    (handleDataPoint d s).1.safetySlot = none ∧
    (handleDataPoint d s).1.countdownSlot = none ∧
    (handleDataPoint d s).1.alarm_contact = jsTruthy (getDataValue d) ∧
    (handleDataPoint d s).1.garage_Door_State_Capability =
      (if jsTruthy (getDataValue d) then "open" else "closed") := by
  by_cases hopen : jsTruthy (getDataValue d) = true <;>
    by_cases hz : parseIntOr s.settings.open_alarm_time 0 = 0 <;>
    simp_all [handleDataPoint, contactUpdate, startOpenAlarmTimer, stopOpenAlarmTimer,
      scheduleOpenAlarm, clearOpenAlarm, clearSafety, clearCountdown,
      setStateCap, setButton, hdp]

/-- Witness for C2 on a concrete dp 3 report with payload byte 1. -/
theorem c2_witness :
    (handleDataPoint ⟨3, 1, [1]⟩ initState).1.alarm_contact = true :=
  (c2_contact_update initState ⟨3, 1, [1]⟩ rfl rfl).2.2.1.trans (by decide)

/-- C3: a transport-reported timeout on the pulse write is benign
(one attempt, no retry, cycle proceeds to the safety timer); any
non-timeout error causes exactly one retry after a fixed 500 ms delay;
if the retry also fails the cycle ends as failed; the write is never
attempted more than twice. -/
theorem c3_pulse_retry (s : DeviceState) (r1 r2 : WriteRes) :
    (sendPulse r1 r2 s).attempts ≤ 2 ∧
    (r1 = .timeoutErr →
      (sendPulse r1 r2 s).attempts = 1 ∧
      (sendPulse r1 r2 s).retryDelayMs = none ∧
      (sendPulse r1 r2 s).failed = false ∧
      (sendPulse r1 r2 s).state.safetySlot =
        some (!s.alarm_contact, parseIntOr s.settings.run_time 20)) ∧
    (r1 = .err →
      (sendPulse r1 r2 s).attempts = 2 ∧ (sendPulse r1 r2 s).retryDelayMs = some 500) ∧
    (r1 = .err → r2 ≠ .ok → (sendPulse r1 r2 s).failed = true) ∧
    (r1 ≠ .err → (sendPulse r1 r2 s).attempts = 1) := by
  cases r1 <;> cases r2 <;>
    simp [sendPulse, startSafetyTimer, scheduleSafety, clearSafety, setStateCap]

/-- Witness for C3 on the timeout outcome: one attempt and a safety
timer scheduled. -/
theorem c3_witness :
    (sendPulse .timeoutErr .ok initState).attempts = 1 ∧
    (sendPulse .timeoutErr .ok initState).state.safetySlot = some (true, 20) := by
  have h := c3_pulse_retry initState .timeoutErr .ok
  refine ⟨(h.2.1 rfl).1, ?_⟩
  rw [(h.2.1 rfl).2.2.2]
  decide


/-- C4: `triggerDoorPulse` first cancels any pending countdown and
safety timers (its result does not depend on them); with countdown 0 it
sends the pulse immediately; otherwise it sets the status to the
countdown value "2" and schedules the countdown timer for the
configured seconds, whose firing performs exactly the zero-countdown
path; on a non-failed pulse the status becomes "moving" and the
recorded expected end state is the negation of the current contact
value. -/
theorem c4_trigger_cycle (s : DeviceState) (r1 r2 : WriteRes) (hcap : s.caps.hasStateCap = true) :
    triggerDoorPulse r1 r2 s =
      triggerDoorPulse r1 r2 { s with countdownSlot := none, safetySlot := none } ∧
    (parseIntOr s.settings.count_down 0 = 0 →
      triggerDoorPulse r1 r2 s =
        sendPulse r1 r2 { s with countdownSlot := none, safetySlot := none }) ∧
    (parseIntOr s.settings.count_down 0 ≠ 0 →
      (triggerDoorPulse r1 r2 s).attempts = 0 ∧
      (triggerDoorPulse r1 r2 s).state.garage_Door_State_Capability = "2" ∧
      (triggerDoorPulse r1 r2 s).state.countdownSlot =
        some (parseIntOr s.settings.count_down 0) ∧
      (triggerDoorPulse r1 r2 s).state.safetySlot = none) ∧
    (∀ (t : DeviceState), t.countdownSlot.isSome = true →
      (countdownFireStep r1 r2 t).1 =
        (sendPulse r1 r2 { t with countdownSlot := none }).state) ∧
    ((sendPulse r1 r2 s).failed = false →
      (sendPulse r1 r2 s).state.safetySlot =
        some (!s.alarm_contact, parseIntOr s.settings.run_time 20) ∧
      (sendPulse r1 r2 s).state.garage_Door_State_Capability = "moving") := by
  refine ⟨?_, ?_, ?_, ?_, ?_⟩
  · simp [triggerDoorPulse, clearSafety, clearCountdown]
  · intro h
    simp [triggerDoorPulse, clearSafety, clearCountdown, h]
  · intro h
    simp [triggerDoorPulse, clearSafety, clearCountdown, scheduleCountdown, setStateCap, h, hcap]
  · intro t ht
    rcases hslot : t.countdownSlot with _ | q
    · rw [hslot] at ht; simp at ht
    · simp [countdownFireStep, hslot]
  · intro hfail
    cases r1 <;> cases r2 <;>
      simp_all [sendPulse, startSafetyTimer, scheduleSafety, clearSafety, setStateCap, hcap]

/-- Witness for C4 with a 5 second countdown configured. -/
theorem c4_witness :
    (triggerDoorPulse .ok .ok { initState with settings := ⟨some 5, some 20, some 30⟩ }).state.countdownSlot = some 5 ∧
    (triggerDoorPulse .ok .ok { initState with settings := ⟨some 5, some 20, some 30⟩ }).state.garage_Door_State_Capability = "2" := by
  have h := (c4_trigger_cycle { initState with settings := ⟨some 5, some 20, some 30⟩ }
    .ok .ok rfl).2.2.1 (by decide)
  exact ⟨h.2.2.1.trans (by decide), h.2.1⟩

/-- C7: when the pulse write fails with a non-timeout error and the
single retry also fails, the status is set to "error" immediately and a
fixed 3000 ms recovery timeout is scheduled whose firing re-derives the
status from the current contact value (open if the contact reads open,
closed otherwise); no safety timer is started for that cycle. -/
theorem c7_failure_recovery (s : DeviceState) (r2 : WriteRes)
    (hcap : s.caps.hasStateCap = true) (h2 : r2 ≠ .ok) :
    (sendPulse .err r2 s).state.garage_Door_State_Capability = "error" ∧
    (sendPulse .err r2 s).state.errorRecovery = some 3000 ∧
    (sendPulse .err r2 s).state.safetySlot = s.safetySlot ∧
    (parseIntOr s.settings.count_down 0 = 0 →
      (triggerDoorPulse .err r2 s).state.safetySlot = none) ∧
    (∀ (t : DeviceState) (ms : Nat), t.errorRecovery = some ms → t.caps.hasStateCap = true →
      (errorRecoveryFireStep t).1.garage_Door_State_Capability =
        (if t.alarm_contact then "open" else "closed")) := by
  refine ⟨?_, ?_, ?_, ?_, ?_⟩
  · cases r2 <;> simp_all [sendPulse, setStateCap, hcap]
  · cases r2 <;> simp_all [sendPulse, setStateCap]
  · cases r2 <;> simp_all [sendPulse, setStateCap]
  · intro h
    cases r2 <;>
      simp_all [triggerDoorPulse, sendPulse, setStateCap, clearSafety, clearCountdown, h]
  · intro t ms ht hcap2
    unfold errorRecoveryFireStep
    rw [ht]
    simp [setStateCap, hcap2]

/-- Witness for C7 on a doubly failing write from the initial state. -/
theorem c7_witness :
    (sendPulse .err .err initState).state.garage_Door_State_Capability = "error" ∧
    (sendPulse .err .err initState).state.errorRecovery = some 3000 := by
  have h := c7_failure_recovery initState .err rfl (by decide)
  exact ⟨h.1, h.2.1⟩

/-- C10: a status-code report (dp 12) only sets the user-facing state
capability to the string form of the decoded value; it leaves the
contact state, the door button capability, every pending timer
(countdown, safety, open-alarm, orphans included), the recovery timeout
and the settings unchanged, and emits no alert. -/
theorem c10_status_report (s : DeviceState) (d : TuyaDataPoint) (hdp : d.dp = 12) :
    (handleDataPoint d s).1.alarm_contact = s.alarm_contact ∧
    (handleDataPoint d s).1.garage_Door_Button = s.garage_Door_Button ∧
    (handleDataPoint d s).1.safetySlot = s.safetySlot ∧
    (handleDataPoint d s).1.safetyOrphans = s.safetyOrphans ∧
    (handleDataPoint d s).1.countdownSlot = s.countdownSlot ∧
    (handleDataPoint d s).1.countdownOrphans = s.countdownOrphans ∧
    (handleDataPoint d s).1.openAlarmSlot = s.openAlarmSlot ∧
    (handleDataPoint d s).1.openAlarmOrphans = s.openAlarmOrphans ∧
    (handleDataPoint d s).1.errorRecovery = s.errorRecovery ∧
    (handleDataPoint d s).1.settings = s.settings ∧
    (handleDataPoint d s).2 = [] ∧
    (s.caps.hasStateCap = true → ∀ str, jsToString (getDataValue d) = some str →
      (handleDataPoint d s).1.garage_Door_State_Capability = str) := by
  rcases hv : jsToString (getDataValue d) with _ | str <;>
    simp_all [handleDataPoint, setStateCap, hdp]

/-- Witness for C10 on a concrete dp 12 report decoding to 1. -/
theorem c10_witness :
    (handleDataPoint ⟨12, 2, [0, 0, 0, 1]⟩ initState).1.garage_Door_State_Capability = "1" ∧
    (handleDataPoint ⟨12, 2, [0, 0, 0, 1]⟩ initState).1.safetySlot = none := by
  have h := c10_status_report initState ⟨12, 2, [0, 0, 0, 1]⟩ rfl
  exact ⟨h.2.2.2.2.2.2.2.2.2.2.2 rfl "1" (by decide), h.2.2.1⟩

/-- C5: over every sequence of trigger requests, sensor updates,
settings changes and timer firings from a fresh device, at most one
countdown timer and at most one safety timer are pending at any time,
and the two are never pending simultaneously. -/
theorem c5_timer_mutex (init : DeviceState) (events : List Event) (h : NoPendingTimers init) :
    safetyPendingCount (run init events) ≤ 1 ∧
    countdownPendingCount (run init events) ≤ 1 ∧
    safetyPendingCount (run init events) + countdownPendingCount (run init events) ≤ 1 := by
  have hinv : TimerInv init := ⟨h.2.1, h.2.2.2.1, h.2.2.2.2.2, Or.inl h.1⟩
  have hrun := timerInv_run init events hinv
  obtain ⟨h1, h2, h3, h4⟩ := hrun
  unfold safetyPendingCount countdownPendingCount
  rcases hs : (run init events).safetySlot with _ | p <;>
    rcases hc : (run init events).countdownSlot with _ | q <;>
    simp_all

/-- Witness for C5 on a concrete three-event trace with two rapid
trigger requests. -/
theorem c5_witness :
    safetyPendingCount
        (run initState [Event.trigger .ok .ok, Event.trigger .err .err,
          Event.dataPoint ⟨3, 1, [1]⟩]) ≤ 1 ∧
    countdownPendingCount
        (run initState [Event.trigger .ok .ok, Event.trigger .err .err,
          Event.dataPoint ⟨3, 1, [1]⟩]) ≤ 1 := by
  have h := c5_timer_mutex initState
    [Event.trigger .ok .ok, Event.trigger .err .err, Event.dataPoint ⟨3, 1, [1]⟩]
    ⟨rfl, rfl, rfl, rfl, rfl, rfl⟩
  exact ⟨h.1, h.2.1⟩

/-- C6 (amended): immediately after every position-contact update the
open-alarm timer is pending iff that update reported the door open and
the configured `open_alarm_time` is strictly positive, scheduled for
the currently configured duration (an update to closed stops it
unconditionally); the firing of the open-alarm timer leaves it
unpending without restart; and when the configured duration is 0 (or
unset) throughout a trace, no open-alarm timer is ever pending
regardless of door state. -/
theorem c6_open_alarm_timer :
    (∀ (s : DeviceState) (d : TuyaDataPoint), d.dp = 3 →
      (handleDataPoint d s).1.openAlarmSlot =
        (if jsTruthy (getDataValue d) = true ∧ parseIntOr s.settings.open_alarm_time 0 ≠ 0
         then some (parseIntOr s.settings.open_alarm_time 0) else none) ∧
      (handleDataPoint d s).1.openAlarmOrphans = s.openAlarmOrphans) ∧
    (∀ (s : DeviceState), (openAlarmFireStep s).1.openAlarmSlot = none) ∧
    (∀ (init : DeviceState) (es : List Event), NoPendingTimers init →
      parseIntOr init.settings.open_alarm_time 0 = 0 → OpenAlarmZeroTrace es →
      (run init es).openAlarmSlot = none ∧ (run init es).openAlarmOrphans = 0) := by
  refine ⟨?_, ?_, ?_⟩
  · intro s d hdp
    by_cases hopen : jsTruthy (getDataValue d) = true <;>
      by_cases hz : parseIntOr s.settings.open_alarm_time 0 = 0 <;>
      simp_all [handleDataPoint, contactUpdate, startOpenAlarmTimer, stopOpenAlarmTimer,
        scheduleOpenAlarm, clearOpenAlarm, clearSafety, clearCountdown,
        setStateCap, setButton, hdp]
  · intro s
    rcases hs : s.openAlarmSlot with _ | q <;>
      simp [openAlarmFireStep, hs] <;> split <;> rfl
  · intro init es h hz htr
    have h0 : OpenAlarmOff init := ⟨hz, h.2.2.2.2.1, h.2.2.2.2.2⟩
    have hr := openAlarmOff_run init es h0 htr
    exact ⟨hr.2.1, hr.2.2⟩

/-- Witness for C6: a contact-open update with a 30 second configured
duration leaves a 30 second open-alarm timer pending. -/
theorem c6_amended_witness :
    (handleDataPoint ⟨3, 1, [1]⟩ initState).1.openAlarmSlot = some 30 := by
  have h := (c6_open_alarm_timer.1 initState ⟨3, 1, [1]⟩ rfl).1
  rw [h]
  decide

/-- Counterexample to C6 as stated: after the open-alarm timer fires,
the door is still open and the configured duration is still positive,
yet no open-alarm timer is pending, so pendingness is not equivalent to
the door being open with a positive configured duration. -/
theorem c6_counterexample :
    ¬ ((run initState [Event.dataPoint ⟨3, 1, [1]⟩, Event.openAlarmFire]).openAlarmSlot.isSome = true ↔
       ((run initState [Event.dataPoint ⟨3, 1, [1]⟩, Event.openAlarmFire]).alarm_contact = true ∧
        0 < parseIntOr
          (run initState [Event.dataPoint ⟨3, 1, [1]⟩, Event.openAlarmFire]).settings.open_alarm_time 0)) := by
  decide

end GarageDoor
